import Mathlib

/-!
Verification of the YoRent monthly tax/utility reconciliation logic.

The development shallowly embeds:
* the frontend calculation `calculateMonthlyTaxRecord` (TaxAccountability
  component) together with its `monthMatches` period filter and the
  JavaScript-style label matching (`String.prototype.includes` on lowercased
  text, `Number.parseFloat` coercion of the tax-rate field);
* the SQL function `generate_monthly_tax_record` from the Supabase migration
  (ILIKE-based period filters over `payments` and `utilities_expenses`,
  upsert into `tax_records` keyed by `(month, year)`);
* the AFTER trigger `update_tax_records_on_payment_change` on `payments`;
* the `tax_records` listing (`taxService.list` / the dashboard query) that
  orders by the `month` text column descending.

Currency amounts (SQL DECIMAL, JS number) are modelled as rationals; calendar
dates as explicit (year, month, day) triples; nullable columns as `Option`.
-/

/-- Lowercase a string character by character; models
`String.prototype.toLowerCase` (and the case folding ILIKE performs) on the
ASCII month names and labels this code handles. -/
def lowerStr (s : String) : String := String.mk (s.toList.map Char.toLower)

/-- `leadMatch pat txt` is true when `pat` occurs at the very start of `txt`. -/
def leadMatch : List Char → List Char → Bool
  | [], _ => true
  | _ :: _, [] => false
  | a :: as, b :: bs => a == b && leadMatch as bs

/-- `subSearch pat txt` is true when `pat` occurs somewhere inside `txt`. -/
def subSearch (pat : List Char) : List Char → Bool
  | [] => pat.isEmpty
  | c :: rest => leadMatch pat (c :: rest) || subSearch pat rest

/-- Model of JavaScript `txt.includes(pat)`. -/
def jsIncludes (txt pat : String) : Bool :=
  subSearch pat.toList txt.toList

/-- `searchTail pat txt` finds the first occurrence of `pat` in `txt` and
returns the suffix of `txt` after that occurrence. -/
def searchTail (pat : List Char) : List Char → Option (List Char)
  | [] => if pat.isEmpty then some [] else none
  | c :: rest =>
      if leadMatch pat (c :: rest) then some ((c :: rest).drop pat.length)
      else searchTail pat rest

/-- Model of the SQL filter `txt ILIKE '%' || m || '%' || ytext || '%'` used by
`generate_monthly_tax_record`: case-insensitively, `txt` contains `m` and then
`ytext` somewhere after it.  (If `ytext` occurs after any occurrence of `m` it
also occurs after the first one, so searching from the first occurrence is
equivalent to the SQL semantics.) -/
def ilikeMonthYear (txt m ytext : String) : Bool :=
  match searchTail (lowerStr m).toList (lowerStr txt).toList with
  | none => false
  | some rest => subSearch (lowerStr ytext).toList rest

/-- Numeric value of an ASCII digit. -/
def digVal (c : Char) : Option Nat :=
  if 48 ≤ c.toNat && c.toNat ≤ 57 then some (c.toNat - 48) else none

/-- Split a character list into its leading run of digits and the rest. -/
def takeDigits : List Char → (List Nat × List Char)
  | [] => ([], [])
  | c :: cs =>
      match digVal c with
      | some d => ((d :: (takeDigits cs).1), (takeDigits cs).2)
      | none => ([], c :: cs)

/-- Value of a digit list read as a decimal integer. -/
def digitsToNat (ds : List Nat) : Nat := ds.foldl (fun a d => a * 10 + d) 0

/-- Value of a digit list read as a decimal fraction (digits after the point). -/
def fracValue (ds : List Nat) : ℚ := ds.foldr (fun d a => ((d : ℚ) + a) / 10) 0

/-- Model of the JavaScript builtin `Number.parseFloat` on the numeric forms
this code feeds it (optional sign, integer part, optional fraction; leading
spaces skipped, trailing garbage ignored).  `none` stands for `NaN`. -/
def jsParseFloat (s : String) : Option ℚ :=
  let cs := s.toList.dropWhile (fun c => c == ' ')
  let sb : ℚ × List Char :=
    match cs with
    | '-' :: t => (-1, t)
    | '+' :: t => (1, t)
    | t => (1, t)
  let ip := takeDigits sb.2
  let fp : List Nat :=
    match ip.2 with
    | '.' :: t => (takeDigits t).1
    | _ => []
  if ip.1.isEmpty && fp.isEmpty then none
  else some (sb.1 * ((digitsToNat ip.1 : ℚ) + fracValue fp))

/-- Model of the PostgreSQL `text::INTEGER` cast: trim spaces, optional sign,
one or more digits and nothing else; `none` stands for the
`invalid input syntax for type integer` exception. -/
def parseIntPG (s : String) : Option Int :=
  let cs := ((s.toList.dropWhile (fun c => c == ' ')).reverse.dropWhile
    (fun c => c == ' ')).reverse
  let sb : Int × List Char :=
    match cs with
    | '-' :: t => (-1, t)
    | '+' :: t => (1, t)
    | t => (1, t)
  let ds := takeDigits sb.2
  if ds.1.isEmpty || !ds.2.isEmpty then none
  else some (sb.1 * (digitsToNat ds.1 : Int))

/-- A calendar date as stored in the DATE columns. -/
structure JsDate where
  year : Int
  month : Nat
  day : Nat
deriving DecidableEq

/-- English month name of a 1-based month number; models
`Date.prototype.toLocaleString('en-US', month long)`. -/
def monthName : Nat → String
  | 1 => "January"
  | 2 => "February"
  | 3 => "March"
  | 4 => "April"
  | 5 => "May"
  | 6 => "June"
  | 7 => "July"
  | 8 => "August"
  | 9 => "September"
  | 10 => "October"
  | 11 => "November"
  | 12 => "December"
  | _ => ""

/-- The `monthMatches` closure of `calculateMonthlyTaxRecord`: the date's
long month name equals the requested month and its year equals the requested
year. -/
def monthMatches (d : JsDate) (month : String) (year : Int) : Bool :=
  monthName d.month == month && d.year == year

/-- The fields of a `payments` row used by the frontend calculation
(`DbPayment` in `supabaseApi.ts`).  `month` is the free-text period label;
it is `Option` to capture both a NULL and the empty-string case the code
guards against with a truthiness test. -/
structure DbPayment where
  amount : ℚ
  month : Option String
  due_date : JsDate
  paid_date : Option JsDate
  status : String
deriving DecidableEq

/-- The fields of an `expenses` row used by the frontend calculation. -/
structure DbExpense where
  amount : ℚ
  category : String
  expense_date : JsDate
deriving DecidableEq

/-- The period filter applied to one payment inside
`calculateMonthlyTaxRecord`: when the label is present and non-empty the code
returns `payment.month.toLowerCase().includes(month.toLowerCase())`, otherwise
it falls back to `monthMatches(payment.paid_date ?? payment.due_date)`. -/
def paymentPeriodMatches (p : DbPayment) (month : String) (year : Int) : Bool :=
  match p.month with
  | some lbl =>
      if lbl = "" then monthMatches (p.paid_date.getD p.due_date) month year
      else jsIncludes (lowerStr lbl) (lowerStr month)
  | none => monthMatches (p.paid_date.getD p.due_date) month year

/-- The `totalRevenue` computation of `calculateMonthlyTaxRecord`: filter to
status `'paid'`, filter by the period predicate, sum the amounts. -/
def totalRevenue (payments : List DbPayment) (month : String) (year : Int) : ℚ :=
  (((payments.filter (fun p => p.status == "paid")).filter
      (fun p => paymentPeriodMatches p month year)).map (fun p => p.amount)).sum

/-- The record value returned by `calculateMonthlyTaxRecord`. -/
structure TaxCalc where
  month : String
  year : Int
  total_revenue : ℚ
  total_utilities : ℚ
  electricity : ℚ
  water : ℚ
  gas : ℚ
  maintenance : ℚ
  other_expenses : ℚ
  net_income : ℚ
  tax_rate : ℚ
  tax_amount : ℚ
deriving DecidableEq

/-- The frontend calculation `calculateMonthlyTaxRecord(month, year)` over
already-loaded payment and expense lists, with the form's tax-rate string as
input (`Number.parseFloat`, `NaN` coerced to `0`). -/
def calculateMonthlyTaxRecord (payments : List DbPayment) (expenses : List DbExpense)
    (month : String) (year : Int) (taxRateStr : String) : TaxCalc :=
  let tr := totalRevenue payments month year
  let es := expenses.filter (fun e => monthMatches e.expense_date month year)
  let electricity := ((es.filter (fun e => e.category == "utilities")).map
    (fun e => e.amount)).sum
  let maintenance := ((es.filter (fun e => e.category == "maintenance")).map
    (fun e => e.amount)).sum
  let water : ℚ := 0
  let gas : ℚ := 0
  let otherExpenses := ((es.filter
      (fun e => !(e.category == "utilities" || e.category == "maintenance"))).map
    (fun e => e.amount)).sum
  let total_utilities := electricity + maintenance + water + gas + otherExpenses
  let net_income := tr - total_utilities
  let tax_rate := (jsParseFloat taxRateStr).getD 0
  let tax_amount := net_income * (tax_rate / 100)
  ⟨month, year, tr, total_utilities, electricity, water, gas, maintenance,
    otherExpenses, net_income, tax_rate, tax_amount⟩

example : jsIncludes (lowerStr "January 2024") (lowerStr "January") = true := by decide

example : jsParseFloat "abc" = none := by decide

example : parseIntPG "2025" = some 2025 := by decide

example : parseIntPG "Foo" = none := by decide

example : ilikeMonthYear "January 2025" "January" "2025" = true := by decide

example : ilikeMonthYear "January 2024" "January" "2025" = false := by decide

/-- A `payments` row as the SQL trigger and `generate_monthly_tax_record`
see it: `month` is the NOT NULL free-text label. -/
structure PaymentRow where
  id : Nat
  amount : ℚ
  month : String
  status : String
deriving DecidableEq

/-- A `utilities_expenses` row (per-category DECIMAL columns, text `month`). -/
structure UtilityRow where
  month : String
  electricity : ℚ
  water : ℚ
  gas : ℚ
  maintenance : ℚ
  other : ℚ
deriving DecidableEq

/-- A `tax_records` row.  `updated_at` is an abstract timestamp. -/
structure TaxRow where
  month : String
  year : Int
  total_revenue : ℚ
  total_utilities : ℚ
  electricity : ℚ
  water : ℚ
  gas : ℚ
  maintenance : ℚ
  other_expenses : ℚ
  net_income : ℚ
  tax_rate : ℚ
  tax_amount : ℚ
  updated_at : Nat
deriving DecidableEq

/-- Revenue query of `generate_monthly_tax_record`: sum of `amount` over
payments with `status = 'paid'` whose label matches
`ILIKE '%' || month || '%' || year || '%'`. -/
def sqlRevenue (payments : List PaymentRow) (m : String) (y : Int) : ℚ :=
  ((payments.filter
      (fun p => p.status == "paid" && ilikeMonthYear p.month m (toString y))).map
    (fun p => p.amount)).sum

/-- One `COALESCE(SUM(col), 0)` over the `utilities_expenses` rows matching
the period pattern. -/
def sumOver (utils : List UtilityRow) (f : UtilityRow → ℚ) (m : String) (y : Int) : ℚ :=
  ((utils.filter (fun u => ilikeMonthYear u.month m (toString y))).map f).sum

/-- The row value computed by the SELECTs and arithmetic of
`generate_monthly_tax_record`, before the upsert. -/
def computeTaxRow (m : String) (y : Int) (rate : ℚ)
    (payments : List PaymentRow) (utils : List UtilityRow) (now : Nat) : TaxRow :=
  let tr := sqlRevenue payments m y
  let tu := sumOver utils
    (fun u => u.electricity + u.water + u.gas + u.maintenance + u.other) m y
  let e := sumOver utils (fun u => u.electricity) m y
  let w := sumOver utils (fun u => u.water) m y
  let g := sumOver utils (fun u => u.gas) m y
  let mt := sumOver utils (fun u => u.maintenance) m y
  let o := sumOver utils (fun u => u.other) m y
  let ni := tr - tu
  let ta := ni * (rate / 100)
  ⟨m, y, tr, tu, e, w, g, mt, o, ni, rate, ta, now⟩

/-- Does a `tax_records` row have the given `(month, year)` key? -/
def taxKey (m : String) (y : Int) (t : TaxRow) : Bool :=
  t.month == m && t.year == y

/-- The `ON CONFLICT (month, year) DO UPDATE` assignment: overwrite every
derived field and bump `updated_at`, keeping the stored key columns. -/
def overwriteRow (nr t : TaxRow) : TaxRow :=
  ⟨t.month, t.year, nr.total_revenue, nr.total_utilities, nr.electricity,
    nr.water, nr.gas, nr.maintenance, nr.other_expenses, nr.net_income,
    nr.tax_rate, nr.tax_amount, nr.updated_at⟩

/-- The atomic upsert into `tax_records` keyed by `(month, year)`. -/
def upsertTaxRow (recs : List TaxRow) (m : String) (y : Int) (nr : TaxRow) :
    List TaxRow :=
  if recs.any (taxKey m y) then
    recs.map (fun t => if taxKey m y t then overwriteRow nr t else t)
  else recs ++ [nr]

/-- The SQL function `generate_monthly_tax_record(month, year, rate)` as a
transformation of the stored `tax_records` list; `rate = none` models a call
that relies on the `DEFAULT 25.0` of the rate parameter. -/
def generateMonthlyTaxRecord (m : String) (y : Int) (rate : Option ℚ)
    (payments : List PaymentRow) (utils : List UtilityRow)
    (recs : List TaxRow) (now : Nat) : List TaxRow :=
  upsertTaxRow recs m y (computeTaxRow m y (rate.getD 25) payments utils now)

/-- The derived numeric fields of a summary row, in the column order of the
table. -/
def derivedList (t : TaxRow) : List ℚ :=
  [t.total_revenue, t.total_utilities, t.electricity, t.water, t.gas,
    t.maintenance, t.other_expenses, t.net_income, t.tax_rate, t.tax_amount]

/-- A summary row up to its `updated_at` timestamp: key columns plus the
derived numeric fields. -/
def summaryView (t : TaxRow) : String × Int × List ℚ :=
  (t.month, t.year, derivedList t)

/-- Number of stored summary rows with a given `(month, year)` key. -/
def keyCount (recs : List TaxRow) (m : String) (y : Int) : Nat :=
  recs.countP (taxKey m y)

/-- The storage invariant: at most one `tax_records` row per `(month, year)`. -/
def UniquePerPeriod (recs : List TaxRow) : Prop :=
  ∀ m y, keyCount recs m y ≤ 1

/-- One reconciliation request: a period, an optional rate, and the payment
and expense facts current when it runs. -/
structure ReconcileCall where
  m : String
  y : Int
  rate : Option ℚ
  payments : List PaymentRow
  utils : List UtilityRow
  now : Nat

/-- Run one reconciliation request against the stored summaries. -/
def applyCall (c : ReconcileCall) (recs : List TaxRow) : List TaxRow :=
  generateMonthlyTaxRecord c.m c.y c.rate c.payments c.utils recs c.now

/-- Run a sequence of reconciliation requests in order. -/
def runReconciles (calls : List ReconcileCall) (recs : List TaxRow) : List TaxRow :=
  calls.foldl (fun acc c => applyCall c acc) recs

/-- Split a character list at every occurrence of the delimiter, keeping
empty fields; models `string_to_array(label, ' ')`. -/
def splitChar (d : Char) : List Char → List (List Char)
  | [] => [[]]
  | c :: rest =>
      let r := splitChar d rest
      if c == d then [] :: r
      else (c :: r.headD []) :: r.tail

/-- `string_to_array(s, ' ')` on a label, as a list of strings. -/
def strToArray (s : String) (d : Char) : List String :=
  (splitChar d s.toList).map String.mk

/-- A row-level change event on `payments`, with the OLD and NEW rows the
trigger receives. -/
inductive PayOp where
  | ins (newRow : PaymentRow)
  | upd (oldRow newRow : PaymentRow)
  | del (oldRow : PaymentRow)

/-- The `_should_update` condition of `update_tax_records_on_payment_change`:
insert as paid, update into or out of paid, or delete of a paid row. -/
def shouldUpdate : PayOp → Bool
  | .ins n => n.status == "paid"
  | .upd o n =>
      (n.status == "paid" && !(o.status == "paid")) ||
      (!(n.status == "paid") && o.status == "paid")
  | .del o => o.status == "paid"

/-- The label the trigger tokenizes: `OLD.month` on delete, `NEW.month`
otherwise. -/
def opLabel : PayOp → String
  | .ins n => n.month
  | .upd _ n => n.month
  | .del o => o.month

/-- Effect of the payment statement itself on the `payments` table. -/
def writePayment : PayOp → List PaymentRow → List PaymentRow
  | .ins n, ps => ps ++ [n]
  | .upd _ n, ps => ps.map (fun r => if r.id == n.id then n else r)
  | .del o, ps => ps.filter (fun r => !(r.id == o.id))

/-- The stored tables the trigger touches. -/
structure DBState where
  payments : List PaymentRow
  utils : List UtilityRow
  taxes : List TaxRow
deriving DecidableEq

/-- A payment write together with its AFTER trigger
`update_tax_records_on_payment_change`, run in one transaction: the payment
change is applied, then, when the status change crosses the `'paid'`
boundary, the label is tokenized on spaces; with at least two tokens the
second is cast with `::INTEGER` — an invalid cast raises and aborts the whole
transaction (`Except.error`), otherwise `generate_monthly_tax_record` is
invoked with the default rate on the post-write facts. -/
def applyPaymentChange (op : PayOp) (s : DBState) (now : Nat) :
    Except String DBState :=
  let ps2 := writePayment op s.payments
  if shouldUpdate op then
    match strToArray (opLabel op) ' ' with
    | t1 :: t2 :: _ =>
        match parseIntPG t2 with
        | some y =>
            .ok ⟨ps2, s.utils,
              generateMonthlyTaxRecord t1 y none ps2 s.utils s.taxes now⟩
        | none => .error "invalid input syntax for type integer"
    | _ => .ok ⟨ps2, s.utils, s.taxes⟩
  else .ok ⟨ps2, s.utils, s.taxes⟩

/-- Character-list comparison by code points; the order the text column
`month` is compared with under `ORDER BY month DESC` on these ASCII names. -/
def chLe : List Char → List Char → Bool
  | [], _ => true
  | _ :: _, [] => false
  | a :: as, b :: bs =>
      if a.toNat = b.toNat then chLe as bs else decide (a.toNat < b.toNat)

/-- Output order of the `tax_records` listing: `a` comes before `b` when
`b.month ≤ a.month` as text, i.e. month name descending. -/
def monthDesc (a b : TaxRow) : Prop :=
  chLe b.month.toList a.month.toList = true

instance monthDescDecidable : DecidableRel monthDesc :=
  fun a b => Bool.decEq (chLe b.month.toList a.month.toList) true

/-- The `taxService.list(year)` / dashboard query: filter `tax_records` to
the year, order by the `month` text column descending. -/
def taxList (recs : List TaxRow) (y : Int) : List TaxRow :=
  List.insertionSort monthDesc (recs.filter (fun t => t.year == y))

/-- Chronological index of an English month name (January = 1, ...,
December = 12; 0 otherwise). -/
def monthNumber (m : String) : Nat :=
  if m = "January" then 1 else if m = "February" then 2
  else if m = "March" then 3 else if m = "April" then 4
  else if m = "May" then 5 else if m = "June" then 6
  else if m = "July" then 7 else if m = "August" then 8
  else if m = "September" then 9 else if m = "October" then 10
  else if m = "November" then 11 else if m = "December" then 12 else 0

example : strToArray "January 2025" ' ' = ["January", "2025"] := by decide

example : strToArray "2025" ' ' = ["2025"] := by decide

theorem sumFiveCols (l : List UtilityRow) :
    (l.map (fun u => u.electricity + u.water + u.gas + u.maintenance + u.other)).sum
      = (l.map (fun u => u.electricity)).sum + (l.map (fun u => u.water)).sum
        + (l.map (fun u => u.gas)).sum + (l.map (fun u => u.maintenance)).sum
        + (l.map (fun u => u.other)).sum := by
  induction l with
  | nil => simp
  | cons a t ih => simp only [List.map_cons, List.sum_cons, ih]; ring

/-- The three arithmetic invariants on a frontend-computed summary. -/
def TaxCalcInvariants (r : TaxCalc) : Prop :=
  r.total_utilities
      = r.electricity + r.water + r.gas + r.maintenance + r.other_expenses
    ∧ r.net_income = r.total_revenue - r.total_utilities
    ∧ r.tax_amount = r.net_income * r.tax_rate / 100

/-- The three arithmetic invariants on a SQL-computed summary row. -/
def TaxRowInvariants (t : TaxRow) : Prop :=
  t.total_utilities
      = t.electricity + t.water + t.gas + t.maintenance + t.other_expenses
    ∧ t.net_income = t.total_revenue - t.total_utilities
    ∧ t.tax_amount = t.net_income * t.tax_rate / 100

/-- Claim C2: every summary either calculation produces satisfies
`total_utilities = electricity + water + gas + maintenance + other_expenses`,
`net_income = total_revenue - total_utilities` and
`tax_amount = net_income * tax_rate / 100`, with no clamping of a negative
tax amount; stated for the frontend `calculateMonthlyTaxRecord` and for the
row computed by the SQL function `generate_monthly_tax_record`. -/
theorem summary_arith_invariants (payments : List DbPayment)
    (expenses : List DbExpense) (m : String) (yr : Int) (rateStr : String)
    (m2 : String) (yr2 : Int) (q : ℚ) (prows : List PaymentRow)
    (urows : List UtilityRow) (now : Nat) :
    TaxCalcInvariants (calculateMonthlyTaxRecord payments expenses m yr rateStr)
    ∧ TaxRowInvariants (computeTaxRow m2 yr2 q prows urows now) := by
  refine ⟨⟨?_, ?_, ?_⟩, ⟨?_, ?_, ?_⟩⟩ <;>
    simp only [calculateMonthlyTaxRecord, computeTaxRow, sumOver,
      TaxCalcInvariants, TaxRowInvariants] <;>
    (try rw [sumFiveCols]) <;> (try ring)

def payJan24 : DbPayment :=
  ⟨100, some "January 2024", ⟨2024, 1, 1⟩, some ⟨2024, 1, 5⟩, "paid"⟩

/-- Claim C4 counterexample: in the frontend aggregation a paid payment
labeled `"January 2024"` is counted in full in `totalRevenue` for the period
(January, 2025) — the label filter checks only the month substring and
ignores the requested year — whereas the claim says a paid payment for the
same month name but a different year contributes nothing. -/
theorem revenue_year_blind_cex :
    totalRevenue [payJan24] "January" 2025 = 100
    ∧ payJan24.month = some "January 2024"
    ∧ payJan24.status = "paid" := by
  refine ⟨?_, rfl, rfl⟩
  have h1 : (payJan24.status == "paid") = true := by decide
  have h2 : paymentPeriodMatches payJan24 "January" 2025 = true := by decide
  have h3 : payJan24.amount = 100 := rfl
  simp [totalRevenue, List.filter_cons, h1, h2, h3]

/-- Claim C4 amended: `totalRevenue` sums `amount` over payments with status
`'paid'` that pass the period filter, and non-paid payments contribute
nothing; but for a payment with a non-empty label the filter only asks
whether the label contains the requested month name (case-insensitively) and
ignores the requested year, so a paid payment labeled with the same month
name and a different year still contributes.  The SQL aggregation, by
contrast, includes the year in its ILIKE pattern and excludes such a
payment. -/
theorem revenue_filter_amended (p : DbPayment) (ps : List DbPayment)
    (m lbl : String) (y : Int) :
    (p.status ≠ "paid" → totalRevenue (p :: ps) m y = totalRevenue ps m y)
    ∧ (p.status = "paid" → p.month = some lbl → lbl ≠ "" →
        totalRevenue (p :: ps) m y =
          (if jsIncludes (lowerStr lbl) (lowerStr m) = true then p.amount else 0)
            + totalRevenue ps m y)
    ∧ sqlRevenue [⟨1, 100, "January 2024", "paid"⟩] "January" 2025 = 0 := by
  refine ⟨?_, ?_, ?_⟩
  · intro h
    simp [totalRevenue, List.filter_cons, h]
  · intro hs hm hlbl
    have hmatch : paymentPeriodMatches p m y
        = jsIncludes (lowerStr lbl) (lowerStr m) := by
      simp [paymentPeriodMatches, hm, hlbl]
    by_cases hj : jsIncludes (lowerStr lbl) (lowerStr m) = true
    · simp [totalRevenue, List.filter_cons, hs, hmatch, hj]
    · simp [totalRevenue, List.filter_cons, hs, hmatch,
        Bool.not_eq_true _ ▸ hj, hj]
  · have h : ilikeMonthYear "January 2024" "January" (toString (2025 : Int))
        = false := by decide
    simp [sqlRevenue, List.filter_cons, h]

theorem revenue_filter_amended_witness :
    totalRevenue [⟨100, some "x", ⟨2025, 1, 1⟩, none, "pending"⟩] "January" 2025
        = totalRevenue [] "January" 2025
    ∧ totalRevenue [payJan24] "January" 2025 =
        (if jsIncludes (lowerStr "January 2024") (lowerStr "January") = true
          then payJan24.amount else 0) + totalRevenue [] "January" 2025 :=
  ⟨(revenue_filter_amended ⟨100, some "x", ⟨2025, 1, 1⟩, none, "pending"⟩ []
      "January" "x" 2025).1 (by decide),
    (revenue_filter_amended payJan24 [] "January" "January 2024" 2025).2.1
      rfl rfl (by decide)⟩

def payJan25 : DbPayment :=
  ⟨1200, some "January 2025", ⟨2025, 1, 1⟩, none, "paid"⟩

def expJan15 : DbExpense := ⟨50, "utilities", ⟨2025, 1, 15⟩⟩

/-- Claim C5 counterexample: the two representations of January 2025 — the
free-text payment label `"January 2025"` and the calendar date 2025-01-15 —
are NOT attributed to the same set of periods: at the period
(January, 2024) the label matcher still accepts the payment (it ignores the
year), while the date matcher rejects the expense, so `totalRevenue` for
(January, 2024) counts the 2025-labeled payment while the expense filter
drops the 2025 expense.  Period resolution is therefore not
representation-independent. -/
theorem period_resolution_cex :
    paymentPeriodMatches payJan25 "January" 2024 = true
    ∧ monthMatches expJan15.expense_date "January" 2024 = false
    ∧ totalRevenue [payJan25] "January" 2024 = 1200
    ∧ List.filter
        (fun e => monthMatches e.expense_date "January" 2024) [expJan15]
        = [] := by
  refine ⟨by decide, by decide, ?_, by decide⟩
  have h1 : (payJan25.status == "paid") = true := by decide
  have h2 : paymentPeriodMatches payJan25 "January" 2024 = true := by decide
  have h3 : payJan25.amount = 1200 := rfl
  simp [totalRevenue, List.filter_cons, h1, h2, h3]

/-- Claim C5 amended: at the matching period both representations agree —
the label `"January 2025"` and the date 2025-01-15 are both attributed to
(January, 2025) — but the label path is year-blind: the labeled payment is
attributed to (January, y) for every year y, whereas the date is attributed
to (January, y) exactly when y = 2025.  Representation independence holds in
the month component only. -/
theorem period_resolution_amended (y : Int) :
    paymentPeriodMatches payJan25 "January" y = true
    ∧ (monthMatches expJan15.expense_date "January" y = true ↔ y = 2025) := by
  constructor
  · rfl
  · show ((2025 : Int) == y) = true ↔ y = 2025
    rw [beq_iff_eq]
    exact eq_comm

/-- Claim C6 counterexample: no `InvalidTaxRate` failure exists in the code.
A non-numeric tax-rate string is coerced to the rate 0 and the frontend
calculation still returns a record, and the SQL function called with a
negative rate performs the computation and writes a summary row instead of
rejecting the call. -/
theorem tax_rate_validation_cex :
    (calculateMonthlyTaxRecord [] [] "January" 2025 "abc").tax_rate = 0
    ∧ (generateMonthlyTaxRecord "January" 2025 (some (-5)) [] [] [] 0).length
        = 1
    ∧ (computeTaxRow "January" 2025 (-5) [] [] 0).tax_rate = -5 := by
  refine ⟨?_, ?_, rfl⟩
  · have h : jsParseFloat "abc" = none := by decide
    simp [calculateMonthlyTaxRecord, h]
  · simp [generateMonthlyTaxRecord, upsertTaxRow]

/-- Claim C6 amended: no validation is performed on the tax rate.  Omitting
the rate makes the SQL function use its `DEFAULT 25.0`; any explicitly
supplied rate — including a negative one — is accepted, used in the
computation and written (exactly one row mutation still happens); and in the
frontend a rate string that does not parse as a number is silently coerced
to the rate 0 rather than raising `InvalidTaxRate`. -/
theorem tax_rate_handling_amended (m : String) (y : Int)
    (payments : List PaymentRow) (utils : List UtilityRow)
    (recs : List TaxRow) (now : Nat) (q : ℚ) (fpays : List DbPayment)
    (fexps : List DbExpense) (s : String) :
    generateMonthlyTaxRecord m y none payments utils recs now
        = generateMonthlyTaxRecord m y (some 25) payments utils recs now
    ∧ (generateMonthlyTaxRecord m y (some q) payments utils [] now).length = 1
    ∧ (computeTaxRow m y q payments utils now).tax_rate = q
    ∧ (jsParseFloat s = none →
        (calculateMonthlyTaxRecord fpays fexps m y s).tax_rate = 0) := by
  refine ⟨rfl, ?_, rfl, ?_⟩
  · simp [generateMonthlyTaxRecord, upsertTaxRow]
  · intro h
    simp [calculateMonthlyTaxRecord, h]

theorem tax_rate_handling_amended_witness :
    (calculateMonthlyTaxRecord [] [] "March" 2025 "abc").tax_rate = 0 :=
  (tax_rate_handling_amended "March" 2025 [] [] [] 0 1 [] [] "abc").2.2.2
    (by decide)

/-- Claim C10: a paid payment whose month label is NULL or the empty string
is not skipped: the filter falls back to `paid_date ?? due_date`, and when
that date lies in the requested (month, year) the payment's amount is
included in `totalRevenue`. -/
theorem unlabeled_paid_payment_counted (p : DbPayment) (ps : List DbPayment)
    (m : String) (y : Int) (hs : p.status = "paid")
    (hm : p.month = none ∨ p.month = some "")
    (hd : monthMatches (p.paid_date.getD p.due_date) m y = true) :
    totalRevenue (p :: ps) m y = p.amount + totalRevenue ps m y := by
  have hmatch : paymentPeriodMatches p m y = true := by
    rcases hm with h | h <;> simp [paymentPeriodMatches, h, hd]
  simp [totalRevenue, List.filter_cons, hs, hmatch]

def payNoLabel : DbPayment := ⟨1200, none, ⟨2025, 3, 1⟩, some ⟨2025, 3, 4⟩, "paid"⟩

theorem unlabeled_paid_payment_counted_witness :
    totalRevenue [payNoLabel] "March" 2025
      = payNoLabel.amount + totalRevenue [] "March" 2025 :=
  unlabeled_paid_payment_counted payNoLabel [] "March" 2025 rfl (Or.inl rfl)
    (by decide)

theorem taxKey_computeTaxRow (m : String) (y : Int) (r : ℚ)
    (payments : List PaymentRow) (utils : List UtilityRow) (now : Nat) :
    taxKey m y (computeTaxRow m y r payments utils now) = true := by
  simp [taxKey, computeTaxRow]

theorem upsert_any_key (recs : List TaxRow) (m : String) (y : Int)
    (nr : TaxRow) (hkey : taxKey m y nr = true) :
    (upsertTaxRow recs m y nr).any (taxKey m y) = true := by
  unfold upsertTaxRow
  by_cases h : recs.any (taxKey m y) = true
  · rw [if_pos h]
    obtain ⟨t, ht, htk⟩ := List.any_eq_true.mp h
    refine List.any_eq_true.mpr
      ⟨overwriteRow nr t, List.mem_map.mpr ⟨t, ht, ?_⟩, ?_⟩
    · rw [if_pos htk]
    · exact htk
  · rw [if_neg h, List.any_append]
    simp [hkey]

theorem upsert_key_rows (recs : List TaxRow) (m : String) (y : Int)
    (nr : TaxRow) (t : TaxRow) (ht : t ∈ upsertTaxRow recs m y nr)
    (htk : taxKey m y t = true) : derivedList t = derivedList nr := by
  unfold upsertTaxRow at ht
  by_cases h : recs.any (taxKey m y) = true
  · rw [if_pos h] at ht
    obtain ⟨u, hu, hut⟩ := List.mem_map.mp ht
    by_cases hk : taxKey m y u = true
    · rw [if_pos hk] at hut
      rw [← hut]
      rfl
    · rw [if_neg hk] at hut
      subst hut
      exact absurd htk hk
  · rw [if_neg h] at ht
    rcases List.mem_append.mp ht with hin | hin
    · have hall := List.any_eq_false.mp (Bool.not_eq_true _ ▸ h) t hin
      exact absurd htk hall
    · rw [List.mem_singleton.mp hin]

/-- Claim C1: reconciliation is idempotent.  Running
`generate_monthly_tax_record` a second time for the same period over the
same payment and expense facts and the same rate leaves every stored row's
key and derived numeric fields identical (only `updated_at` is bumped), and
it does not add a second summary row (the row count is unchanged, since the
second run always takes the `ON CONFLICT ... DO UPDATE` branch). -/
theorem reconcile_idempotent (m : String) (y : Int) (rate : Option ℚ)
    (payments : List PaymentRow) (utils : List UtilityRow)
    (recs : List TaxRow) (t1 t2 : Nat) :
    (generateMonthlyTaxRecord m y rate payments utils
        (generateMonthlyTaxRecord m y rate payments utils recs t1) t2).map
        summaryView
      = (generateMonthlyTaxRecord m y rate payments utils recs t1).map
          summaryView
    ∧ (generateMonthlyTaxRecord m y rate payments utils
        (generateMonthlyTaxRecord m y rate payments utils recs t1) t2).length
      = (generateMonthlyTaxRecord m y rate payments utils recs t1).length := by
  have hk1 : taxKey m y (computeTaxRow m y (rate.getD 25) payments utils t1)
      = true := taxKey_computeTaxRow m y (rate.getD 25) payments utils t1
  have hany : (generateMonthlyTaxRecord m y rate payments utils recs t1).any
      (taxKey m y) = true :=
    upsert_any_key recs m y (computeTaxRow m y (rate.getD 25) payments utils t1) hk1
  have h2 : generateMonthlyTaxRecord m y rate payments utils
      (generateMonthlyTaxRecord m y rate payments utils recs t1) t2
      = (generateMonthlyTaxRecord m y rate payments utils recs t1).map
          (fun t => if taxKey m y t then
            overwriteRow (computeTaxRow m y (rate.getD 25) payments utils t2) t
            else t) := by
    conv_lhs => rw [generateMonthlyTaxRecord, upsertTaxRow, if_pos hany]
  constructor
  · rw [h2, List.map_map]
    apply List.map_congr_left
    intro t ht
    by_cases hk : taxKey m y t = true
    · have hder : derivedList t
          = derivedList (computeTaxRow m y (rate.getD 25) payments utils t1) :=
        upsert_key_rows recs m y _ t ht hk
      show ((if taxKey m y t then
          overwriteRow (computeTaxRow m y (rate.getD 25) payments utils t2) t
          else t).month,
        (if taxKey m y t then
          overwriteRow (computeTaxRow m y (rate.getD 25) payments utils t2) t
          else t).year,
        derivedList (if taxKey m y t then
          overwriteRow (computeTaxRow m y (rate.getD 25) payments utils t2) t
          else t)) = (t.month, t.year, derivedList t)
      rw [if_pos hk, hder]
      rfl
    · show summaryView (if taxKey m y t then
          overwriteRow (computeTaxRow m y (rate.getD 25) payments utils t2) t
          else t) = summaryView t
      rw [if_neg hk]
  · rw [h2, List.length_map]

theorem taxKey_overwrite (m2 : String) (y2 : Int) (nr t : TaxRow) :
    taxKey m2 y2 (overwriteRow nr t) = taxKey m2 y2 t := rfl

theorem upsert_keyCount_update (recs : List TaxRow) (m : String) (y : Int)
    (nr : TaxRow) (h : recs.any (taxKey m y) = true) (m2 : String) (y2 : Int) :
    keyCount (upsertTaxRow recs m y nr) m2 y2 = keyCount recs m2 y2 := by
  unfold upsertTaxRow keyCount
  rw [if_pos h, List.countP_map]
  refine List.countP_congr ?_
  intro t ht
  by_cases hk : taxKey m y t = true
  · simp only [Function.comp, if_pos hk, taxKey_overwrite]
  · simp only [Function.comp, if_neg hk]

theorem upsert_keyCount_insert (recs : List TaxRow) (m : String) (y : Int)
    (nr : TaxRow) (h : recs.any (taxKey m y) = false) (m2 : String) (y2 : Int) :
    keyCount (upsertTaxRow recs m y nr) m2 y2
      = keyCount recs m2 y2 + (if taxKey m2 y2 nr = true then 1 else 0) := by
  unfold upsertTaxRow keyCount
  rw [if_neg (by simp [h]), List.countP_append]
  simp [List.countP_cons]

theorem generate_preserves_unique (m : String) (y : Int) (rate : Option ℚ)
    (payments : List PaymentRow) (utils : List UtilityRow) (now : Nat)
    (recs : List TaxRow) (h : UniquePerPeriod recs) :
    UniquePerPeriod
      (generateMonthlyTaxRecord m y rate payments utils recs now) := by
  intro m2 y2
  unfold generateMonthlyTaxRecord
  by_cases hb : recs.any (taxKey m y) = true
  · rw [upsert_keyCount_update recs m y _ hb]
    exact h m2 y2
  · have hb2 : recs.any (taxKey m y) = false := by
      rwa [Bool.not_eq_true] at hb
    rw [upsert_keyCount_insert recs m y _ hb2]
    by_cases hk : taxKey m2 y2 (computeTaxRow m y (rate.getD 25) payments utils now)
        = true
    · rw [if_pos hk]
      have hmy : m = m2 ∧ y = y2 := by
        simpa [taxKey, computeTaxRow] using hk
      obtain ⟨hm, hy⟩ := hmy
      subst hm
      subst hy
      have hzero : keyCount recs m y = 0 := by
        rw [keyCount, List.countP_eq_zero]
        exact List.any_eq_false.mp hb2
      rw [hzero]
    · rw [if_neg hk, Nat.add_zero]
      exact h m2 y2

theorem runReconciles_preserves_unique (calls : List ReconcileCall) :
    ∀ recs : List TaxRow, UniquePerPeriod recs →
      UniquePerPeriod (runReconciles calls recs) := by
  induction calls with
  | nil => exact fun recs h => h
  | cons c cs ih =>
      intro recs h
      exact ih _ (generate_preserves_unique c.m c.y c.rate c.payments c.utils
        c.now recs h)

/-- Claim C3: after any sequence of reconciliations across arbitrary periods
(starting from a store satisfying the uniqueness constraint), at most one
`tax_records` row exists per `(month, year)`; a reconciliation for a period
that already has a row keeps the row count unchanged and overwrites that
row's derived fields with the newly computed values, and a reconciliation
for a new period inserts exactly one new row for that period. -/
theorem tax_summary_uniqueness (calls : List ReconcileCall)
    (recs : List TaxRow) (h : UniquePerPeriod recs) (c : ReconcileCall) :
    UniquePerPeriod (runReconciles calls recs)
    ∧ (recs.any (taxKey c.m c.y) = false →
        (applyCall c recs).length = recs.length + 1
        ∧ keyCount (applyCall c recs) c.m c.y = 1)
    ∧ (recs.any (taxKey c.m c.y) = true →
        (applyCall c recs).length = recs.length
        ∧ ∀ t ∈ applyCall c recs, taxKey c.m c.y t = true →
            derivedList t = derivedList
              (computeTaxRow c.m c.y (c.rate.getD 25) c.payments c.utils
                c.now)) := by
  refine ⟨runReconciles_preserves_unique calls recs h, ?_, ?_⟩
  · intro hfalse
    constructor
    · show (upsertTaxRow recs c.m c.y _).length = recs.length + 1
      unfold upsertTaxRow
      rw [if_neg (by simp [hfalse]), List.length_append]
      rfl
    · show keyCount (upsertTaxRow recs c.m c.y _) c.m c.y = 1
      rw [upsert_keyCount_insert recs c.m c.y _ hfalse,
        if_pos (taxKey_computeTaxRow c.m c.y (c.rate.getD 25) c.payments
          c.utils c.now)]
      have hzero : keyCount recs c.m c.y = 0 := by
        rw [keyCount, List.countP_eq_zero]
        exact List.any_eq_false.mp hfalse
      rw [hzero]
  · intro htrue
    constructor
    · show (upsertTaxRow recs c.m c.y _).length = recs.length
      unfold upsertTaxRow
      rw [if_pos htrue, List.length_map]
    · intro t ht htk
      exact upsert_key_rows recs c.m c.y _ t ht htk

def callJan : ReconcileCall := ⟨"January", 2025, none, [], [], 1⟩

def callFeb : ReconcileCall := ⟨"February", 2025, some 30, [], [], 2⟩

theorem tax_summary_uniqueness_witness :
    UniquePerPeriod (runReconciles [callJan, callFeb, callJan] [])
    ∧ (applyCall callJan []).length = List.length ([] : List TaxRow) + 1 :=
  have h : UniquePerPeriod ([] : List TaxRow) := fun m y => by
    simp [keyCount]
  ⟨(tax_summary_uniqueness [callJan, callFeb, callJan] [] h callJan).1,
    ((tax_summary_uniqueness [callJan, callFeb, callJan] [] h callJan).2.1
      (by decide)).1⟩

/-- Claim C7: the payment-change coordinator recomputes exactly on events
crossing the `'paid'` boundary.  Any event with `shouldUpdate` false (for
example an update from `'unpaid'` to `'pending'`) commits the payment write
and leaves the stored `tax_records` untouched; an event with `shouldUpdate`
true whose label tokenizes into at least two fields with an integer second
field replaces `tax_records` by the output of
`generate_monthly_tax_record` for that payment's period, computed over the
post-write payments table. -/
theorem recompute_on_paid_boundary (op : PayOp) (s : DBState) (now : Nat) :
    (shouldUpdate op = false →
      applyPaymentChange op s now
        = .ok ⟨writePayment op s.payments, s.utils, s.taxes⟩)
    ∧ (∀ t1 t2 rest yr, shouldUpdate op = true →
        strToArray (opLabel op) ' ' = t1 :: t2 :: rest →
        parseIntPG t2 = some yr →
        applyPaymentChange op s now
          = .ok ⟨writePayment op s.payments, s.utils,
              generateMonthlyTaxRecord t1 yr none (writePayment op s.payments)
                s.utils s.taxes now⟩) := by
  constructor
  · intro h
    unfold applyPaymentChange
    rw [if_neg (by simp [h])]
  · intro t1 t2 rest yr hb hsplit hparse
    unfold applyPaymentChange
    rw [if_pos hb, hsplit]
    dsimp only
    rw [hparse]

def payBoundaryIns : PaymentRow := ⟨7, 900, "January 2025", "paid"⟩

theorem recompute_on_paid_boundary_witness :
    applyPaymentChange (.ins payBoundaryIns) ⟨[], [], []⟩ 4
      = .ok ⟨writePayment (.ins payBoundaryIns) [], [],
          generateMonthlyTaxRecord "January" 2025 none
            (writePayment (.ins payBoundaryIns) []) [] [] 4⟩ :=
  (recompute_on_paid_boundary (.ins payBoundaryIns) ⟨[], [], []⟩ 4).2
    "January" "2025" [] 2025 (by decide) (by decide) (by decide)

def badPayOld : PaymentRow := ⟨5, 800, "January Foo", "unpaid"⟩

def badPayNew : PaymentRow := ⟨5, 800, "January Foo", "paid"⟩

/-- Claim C8: the code violates the non-blocking requirement.  A payment
whose label has two tokens whose second token is not an integer (here
`"January Foo"`) and whose status is updated from `'unpaid'` to `'paid'`
makes the trigger evaluate `'Foo'::INTEGER`, which raises
`invalid input syntax for type integer` and aborts the whole transaction —
the triggering payment write itself fails, while the claim (and the spec's
failure semantics) require it to succeed with the recompute skipped.  A
label with fewer than two tokens (e.g. `"2025"`) is, by contrast, skipped
gracefully and the write succeeds. -/
theorem payment_write_blocked_on_bad_label :
    applyPaymentChange (.upd badPayOld badPayNew) ⟨[badPayOld], [], []⟩ 3
        = .error "invalid input syntax for type integer"
    ∧ parseIntPG "Foo" = none
    ∧ strToArray "January Foo" ' ' = ["January", "Foo"]
    ∧ applyPaymentChange (.ins ⟨9, 100, "2025", "paid"⟩) ⟨[], [], []⟩ 1
        = .ok ⟨[⟨9, 100, "2025", "paid"⟩], [], []⟩ :=
  ⟨rfl, rfl, rfl, rfl⟩

theorem chLe_total : ∀ a b : List Char, chLe a b = true ∨ chLe b a = true := by
  intro a
  induction a with
  | nil => intro b; left; rfl
  | cons x xs ih =>
      intro b
      cases b with
      | nil => right; rfl
      | cons y ys =>
          by_cases h : x.toNat = y.toNat
          · rcases ih ys with h1 | h1
            · left
              simp [chLe, h, h1]
            · right
              simp [chLe, h.symm, h1]
          · rcases Nat.lt_or_ge x.toNat y.toNat with hlt | hge
            · left
              simp [chLe, h, hlt]
            · have hgt : y.toNat < x.toNat :=
                lt_of_le_of_ne hge (fun he => h he.symm)
              have h2 : ¬(y.toNat = x.toNat) := fun he => h he.symm
              right
              simp [chLe, h2, hgt]

theorem chLe_trans : ∀ a b c : List Char,
    chLe a b = true → chLe b c = true → chLe a c = true := by
  intro a
  induction a with
  | nil => intro b c h1 h2; rfl
  | cons x xs ih =>
      intro b c h1 h2
      cases b with
      | nil => simp [chLe] at h1
      | cons y ys =>
          cases c with
          | nil => simp [chLe] at h2
          | cons z zs =>
              simp only [chLe] at h1 h2 ⊢
              by_cases hxy : x.toNat = y.toNat
              · rw [if_pos hxy] at h1
                by_cases hyz : y.toNat = z.toNat
                · rw [if_pos hyz] at h2
                  rw [if_pos (hxy.trans hyz)]
                  exact ih ys zs h1 h2
                · rw [if_neg hyz] at h2
                  have hlt : y.toNat < z.toNat := of_decide_eq_true h2
                  have hxz : x.toNat < z.toNat := hxy ▸ hlt
                  rw [if_neg (Nat.ne_of_lt hxz)]
                  exact decide_eq_true hxz
              · rw [if_neg hxy] at h1
                have hlt1 : x.toNat < y.toNat := of_decide_eq_true h1
                by_cases hyz : y.toNat = z.toNat
                · have hxz : x.toNat < z.toNat := hyz ▸ hlt1
                  rw [if_neg (Nat.ne_of_lt hxz)]
                  exact decide_eq_true hxz
                · rw [if_neg hyz] at h2
                  have hlt2 : y.toNat < z.toNat := of_decide_eq_true h2
                  have hxz : x.toNat < z.toNat := Nat.lt_trans hlt1 hlt2
                  rw [if_neg (Nat.ne_of_lt hxz)]
                  exact decide_eq_true hxz

instance : IsTotal TaxRow monthDesc :=
  ⟨fun a b => chLe_total b.month.toList a.month.toList⟩

instance : IsTrans TaxRow monthDesc :=
  ⟨fun a b c h1 h2 =>
    chLe_trans c.month.toList b.month.toList a.month.toList h2 h1⟩

def rowSep : TaxRow := ⟨"September", 2025, 0, 0, 0, 0, 0, 0, 0, 0, 0, 0, 0⟩

def rowDec : TaxRow := ⟨"December", 2025, 0, 0, 0, 0, 0, 0, 0, 0, 0, 0, 0⟩

/-- Claim C9 counterexample: the listing orders by the `month` TEXT column
descending, which is alphabetical, not chronological.  For a year holding a
September row and a December row the query returns September first, although
December (month 12) is chronologically later than September (month 9), so
the output does not start with the chronologically latest month. -/
theorem list_order_not_chronological_cex :
    (taxList [rowSep, rowDec] 2025).map (fun t => t.month)
        = ["September", "December"]
    ∧ monthNumber "September" < monthNumber "December" := by
  constructor
  · rfl
  · decide

/-- Claim C9 amended: `listSummaries(year)` returns exactly the stored
summaries of that year, ordered by the `month` text column descending
(reverse-alphabetical string order on the month names) — which does not in
general coincide with chronologically-latest-first. -/
theorem taxList_order_amended (recs : List TaxRow) (y : Int) :
    (taxList recs y).Perm (recs.filter (fun t => t.year == y))
    ∧ List.Sorted monthDesc (taxList recs y) :=
  ⟨List.perm_insertionSort monthDesc _, List.sorted_insertionSort monthDesc _⟩
